import Mathlib

set_option linter.unusedVariables false

/-! Verification model of the node-feedly authentication core.

The definitions below embed, from lib/feedly.js and the utils module, the
token state held by a Feedly instance, the validity classification and the
branch choice of the _getAuth state machine, the token exchange performed by
_getToken and _refresh on top of utils.qrequest, the _auth callback handling,
logout, the one-shot callback server of utils.qserver, the config file load
of _loadConfig, and the constructor seeding of the state.  Dates are
represented by their epoch value in milliseconds as an integer.  The
persisted token file is represented by the state it holds, or none when no
file has been written. -/

/-- The mutable state object of a Feedly instance: the OAuth tokens and the
provider fields that feedly.js reads or deletes.  expires is the epoch
millisecond value of the stored Date. -/
structure FeedlyState where
  access_token : Option String := none
  refresh_token : Option String := none
  expires : Option Int := none
  token_type : Option String := none
  plan : Option String := none
  provider : Option String := none
  id : Option String := none
  deriving Repr, DecidableEq

/-- feedly.js _validToken (lines 172-177): access_token, refresh_token and
expires are all present and expires is strictly in the future. -/
def validToken (st : FeedlyState) (now : Int) : Bool :=
  st.access_token.isSome && st.refresh_token.isSome &&
    (match st.expires with
     | none => false
     | some e => decide (now < e))

/-- The three branches _getAuth can take: full authorization through _auth,
a refresh through _refresh, or returning the stored access token with no
network traffic. -/
inductive AuthAction where
  | fullAuth
  | refreshAction
  | returnStored
  deriving Repr, DecidableEq

/-- feedly.js _getAuth (lines 180-189), as the branch it takes: full
authorization when _validToken is false; otherwise _refresh exactly when
expires minus now exceeds the slop option; otherwise the stored token is
returned unchanged. -/
def getAuthAction (st : FeedlyState) (now slop : Int) : AuthAction :=
  if !(validToken st now) then AuthAction.fullAuth
  else
    match st.expires with
    | some e => if slop < e - now then AuthAction.refreshAction else AuthAction.returnStored
    | none => AuthAction.fullAuth

/-- The JSON body of a token endpoint response, with the fields feedly.js
consumes.  expires_in is in seconds. -/
structure TokenBody where
  access_token : Option String := none
  refresh_token : Option String := none
  token_type : Option String := none
  plan : Option String := none
  provider : Option String := none
  id : Option String := none
  expires_in : Int := 0
  deriving Repr, DecidableEq

/-- One HTTP round trip as seen by utils.qrequest: either the transport
fails, or a response arrives carrying a status code and a parsed body. -/
inductive TransportResult where
  | netError (msg : String)
  | response (status : Nat) (body : TokenBody)
  deriving Repr, DecidableEq

/-- utils.qrequest: reject on transport error, reject on any status code
other than 200, otherwise resolve with the parsed JSON body. -/
def qrequest (r : TransportResult) : Except String TokenBody :=
  match r with
  | TransportResult.netError msg => Except.error msg
  | TransportResult.response status body =>
      if status ≠ 200 then Except.error ("HTTP error: " ++ toString status)
      else Except.ok body

/-- One field of an Object.assign merge: the source field wins exactly when
the source carries the key, otherwise the target field is kept. -/
def assignField (old new : Option String) : Option String :=
  match new with
  | some v => some v
  | none => old

/-- Object.assign of a token response body over the current state
(feedly.js lines 232 and 252): each field present in the body overrides the
state field.  The body has no expires key, so expires is kept here and is
overwritten separately by the caller. -/
def mergeBody (st : FeedlyState) (b : TokenBody) : FeedlyState :=
  { access_token := assignField st.access_token b.access_token
    refresh_token := assignField st.refresh_token b.refresh_token
    token_type := assignField st.token_type b.token_type
    plan := assignField st.plan b.plan
    provider := assignField st.provider b.provider
    id := assignField st.id b.id
    expires := st.expires }

/-- feedly.js _save (lines 162-169): when a config file is configured the
file is overwritten with the serialized state, otherwise nothing happens. -/
def saveState (cfgFile : Bool) (st : FeedlyState) (file : Option FeedlyState) :
    Option FeedlyState :=
  if cfgFile then some st else file

instance instDecEqExcept {ε α : Type} [DecidableEq ε] [DecidableEq α] :
    DecidableEq (Except ε α)
  | Except.error a, Except.error b =>
      match decEq a b with
      | isTrue h => isTrue (h ▸ rfl)
      | isFalse h => isFalse fun hc => h (by cases hc; rfl)
  | Except.error a, Except.ok b => isFalse fun hc => by cases hc
  | Except.ok a, Except.error b => isFalse fun hc => by cases hc
  | Except.ok a, Except.ok b =>
      match decEq a b with
      | isTrue h => isTrue (h ▸ rfl)
      | isFalse h => isFalse fun hc => h (by cases hc; rfl)

/-- The observable outcome of one auth operation: the value it resolves or
rejects with, the in-memory state afterward, the persisted file afterward,
and how many requests reached the token endpoint. -/
structure AuthOutcome where
  result : Except String (Option String)
  state : FeedlyState
  file : Option FeedlyState
  tokenRequests : Nat
  deriving Repr, DecidableEq

/-- feedly.js _getToken (lines 217-236): POST the authorization code to the
token endpoint; a qrequest rejection propagates before the state assignment,
leaving state and file untouched; on success the body is merged over the
state, expires is set to now plus expires_in seconds in milliseconds, the
state is saved, and its access token is returned. -/
def getToken (resp : TransportResult) (now : Int) (cfgFile : Bool)
    (st : FeedlyState) (file : Option FeedlyState) : AuthOutcome :=
  match qrequest resp with
  | Except.error e =>
      { result := Except.error e, state := st, file := file, tokenRequests := 1 }
  | Except.ok body =>
      let st1 := mergeBody st body
      let st2 := { st1 with expires := some (now + body.expires_in * 1000) }
      { result := Except.ok st2.access_token, state := st2,
        file := saveState cfgFile st2 file, tokenRequests := 1 }

/-- feedly.js _refresh (lines 239-256): POST the stored refresh token as a
query to the token endpoint; the failure and success paths are the same as
in _getToken. -/
def refreshTokens (resp : TransportResult) (now : Int) (cfgFile : Bool)
    (st : FeedlyState) (file : Option FeedlyState) : AuthOutcome :=
  match qrequest resp with
  | Except.error e =>
      { result := Except.error e, state := st, file := file, tokenRequests := 1 }
  | Except.ok body =>
      let st1 := mergeBody st body
      let st2 := { st1 with expires := some (now + body.expires_in * 1000) }
      { result := Except.ok st2.access_token, state := st2,
        file := saveState cfgFile st2 file, tokenRequests := 1 }

/-- The query parameters delivered by the OAuth redirect, as _auth reads
them from the resolved qserver future. -/
structure CallbackQuery where
  code : Option String := none
  error : Option String := none
  deriving Repr, DecidableEq

/-- feedly.js _auth (lines 192-214): after the browser dance, await the
callback query; if it carries an error field, throw that error without
contacting the token endpoint; otherwise exchange the code via _getToken. -/
def auth (cb : CallbackQuery) (resp : TransportResult) (now : Int) (cfgFile : Bool)
    (st : FeedlyState) (file : Option FeedlyState) : AuthOutcome :=
  match cb.error with
  | some e => { result := Except.error e, state := st, file := file, tokenRequests := 0 }
  | none => getToken resp now cfgFile st file

/-- feedly.js logout (lines 331-356): the revoke request is started but not
awaited, the token fields are deleted from the state, then Object.assign
copies the pending promise over the cleared state.  A promise object has no
own enumerable properties, so the assign adds nothing: the revoke outcome is
never inspected and the result does not depend on resp.  Returns the state
and the file afterward. -/
def logoutStep (resp : TransportResult) (cfgFile : Bool)
    (st : FeedlyState) (file : Option FeedlyState) :
    FeedlyState × Option FeedlyState :=
  let cleared : FeedlyState :=
    { st with access_token := none, expires := none, plan := none,
              provider := none, refresh_token := none, token_type := none }
  (cleared, saveState cfgFile cleared file)

/-- An inbound HTTP request as qserver parses it: the path and the parsed
query string. -/
structure HttpRequest where
  pathname : String
  query : List (String × String)
  deriving Repr, DecidableEq

/-- The response qserver writes back: status code and page body. -/
structure HttpResponse where
  status : Nat
  body : String
  deriving Repr, DecidableEq

/-- The listener state of one qserver instance: the single-resolution
promise slot and whether the listener has been closed. -/
structure ServerState where
  resolved : Option (List (String × String)) := none
  closed : Bool := false
  deriving Repr, DecidableEq

/-- utils.qserver request handler: a request for the root path is answered
200 with the configured text, the promise is resolved with the parsed query
(resolution is a no-op when the slot is already filled), and the listener is
closed; a request for any other path is answered 404 and neither resolves
nor closes. -/
def handleRequest (text : String) (s : ServerState) (req : HttpRequest) :
    ServerState × HttpResponse :=
  if req.pathname = "/" then
    ({ resolved :=
         match s.resolved with
         | some q => some q
         | none => some req.query,
       closed := true },
     { status := 200, body := text })
  else
    (s, { status := 404, body := "" })

/-- Requests offered to the listener in order: a closed listener refuses the
connection, reported as none; an open listener services the request through
handleRequest. -/
def runServer (text : String) : ServerState → List HttpRequest →
    ServerState × List (Option HttpResponse)
  | s, [] => (s, [])
  | s, r :: rs =>
      if s.closed then
        let rest := runServer text s rs
        (rest.1, none :: rest.2)
      else
        let step := handleRequest text s r
        let rest := runServer text step.1 rs
        (rest.1, some step.2 :: rest.2)

/-- What reading the configured token file can yield: the file is absent or
unreadable, its contents fail JSON.parse, or it parses to a stored state
whose expires field is the persisted epoch millisecond count. -/
inductive TokenFileRead where
  | missing
  | malformed
  | parsed (s : FeedlyState)
  deriving Repr, DecidableEq

/-- new Date applied to a stored epoch millisecond count: the timestamp it
denotes, which is the same millisecond count in this model. -/
def dateOfMs (n : Int) : Int := n

/-- feedly.js _loadConfig (lines 136-147): with a null config_file option
the state is left alone; otherwise the file is read and parsed, a present
expires field is converted through new Date, and any read or parse failure
resets the state to the empty object.  The cfg argument is none when
options.config_file is null. -/
def loadConfig (cfg : Option TokenFileRead) (st : FeedlyState) : FeedlyState :=
  match cfg with
  | none => st
  | some TokenFileRead.missing => {}
  | some TokenFileRead.malformed => {}
  | some (TokenFileRead.parsed s) => { s with expires := s.expires.map dateOfMs }

/-- The token options accepted by the constructor.  access_token_expires
defaults to 0. -/
structure CtorTokenOptions where
  refresh_token : Option String := none
  access_token : Option String := none
  access_token_expires : Int := 0
  deriving Repr, DecidableEq

/-- A string option is truthy in JavaScript when it is present and not the
empty string. -/
def truthyStr : Option String → Bool
  | none => false
  | some s => s != ""

/-- feedly.js constructor (lines 122-129): the state is seeded from the
token options exactly when refresh_token, access_token and
access_token_expires are all truthy, and is the empty object otherwise. -/
def ctorState (o : CtorTokenOptions) : FeedlyState :=
  if truthyStr o.refresh_token && truthyStr o.access_token
      && (o.access_token_expires != 0) then
    { refresh_token := o.refresh_token, access_token := o.access_token,
      expires := some o.access_token_expires }
  else {}

/-- The constructor followed by the awaited _loadConfig: the state visible
to the first _getAuth call. -/
def startupState (o : CtorTokenOptions) (cfg : Option TokenFileRead) : FeedlyState :=
  loadConfig cfg (ctorState o)

/-- The identifiers bound at the top level of lib/feedly.js: the required
modules, the promisified file helpers, the module-level helper functions,
the class itself, and the CommonJS ambient names. -/
def feedlyModuleScope : List String :=
  ["fs", "path", "url", "util", "readFile", "writeFile", "open", "untildify",
   "utils", "_normalizeTag", "_nodify", "_pickCB", "_streamOptions", "Feedly",
   "module", "require", "exports", "__dirname", "__filename"]

/-- The bindings visible inside the bodies of markEntrySaved and
markEntryUnsaved: the method parameters and the keyword this, then the
module scope. -/
def markEntryScope : List String := ["ids", "cb", "this"] ++ feedlyModuleScope

/-- The observable outcome of calling one of the marker methods: a
ReferenceError naming the unresolved identifier, or a request with its
path, method, action and entry ids. -/
inductive MethodOutcome where
  | referenceError (name : String)
  | requested (path method action : String) (entryIds : List String)
  deriving Repr, DecidableEq

/-- feedly.js markEntrySaved (lines 620-629): after normalizing ids to an
array, the body evaluates the member expression on the identifier f;
resolving f against the visible scope decides whether the request is issued
or a ReferenceError is thrown. -/
def markEntrySaved (ids : List String) : MethodOutcome :=
  if "f" ∈ markEntryScope then
    MethodOutcome.requested "/v3/markers" "POST" "markAsSaved" ids
  else MethodOutcome.referenceError "f"

/-- feedly.js markEntryUnsaved (lines 639-648): same shape as
markEntrySaved with the markAsUnsaved action. -/
def markEntryUnsaved (ids : List String) : MethodOutcome :=
  if "f" ∈ markEntryScope then
    MethodOutcome.requested "/v3/markers" "POST" "markAsUnsaved" ids
  else MethodOutcome.referenceError "f"

/-- Claim C1: the claim says that with credentials expiring inside the slop
window (ExpiringSoon) _getAuth refreshes, and with credentials expiring
beyond the slop window (Valid) it returns the stored token with no network
call.  The code does the opposite: here expires minus now is 1000 ms with
slop 3600000 and the stored token is returned without a refresh, while with
expires minus now at 8000000 ms a refresh is performed.  The comparison at
feedly.js line 185 is inverted relative to the documented meaning of the
slop option (feedly.js lines 97 to 99). -/
theorem getAuth_slop_comparison_inverted :
    getAuthAction { access_token := some "a", refresh_token := some "r",
                    expires := some 1000000 } 999000 3600000
      = AuthAction.returnStored ∧
    getAuthAction { access_token := some "a", refresh_token := some "r",
                    expires := some 8000000 } 0 3600000
      = AuthAction.refreshAction := by
  exact ⟨rfl, rfl⟩

/-- Claim C2: whenever access_token, refresh_token or expires is absent, or
expires is not strictly in the future, _validToken is false (the state is
never classified Valid) and _getAuth takes the full authorization branch,
neither returning the stored token nor refreshing. -/
theorem invalid_state_full_auth (st : FeedlyState) (now slop : Int)
    (h : st.access_token = none ∨ st.refresh_token = none ∨ st.expires = none ∨
         ∃ e, st.expires = some e ∧ e ≤ now) :
    validToken st now = false ∧ getAuthAction st now slop = AuthAction.fullAuth := by
  have hv : validToken st now = false := by
    unfold validToken
    rcases h with h | h | h | ⟨e, he, hle⟩
    · simp [h]
    · simp [h]
    · simp [h]
    · have hd : decide (now < e) = false := decide_eq_false (not_lt.mpr hle)
      simp [he, hd]
  refine ⟨hv, ?_⟩
  unfold getAuthAction
  simp [hv]

/-- Witness for claim C2 at a concrete expired state. -/
theorem invalid_state_full_auth_check :
    validToken { access_token := some "a", refresh_token := some "r",
                 expires := some 5 } 5 = false ∧
    getAuthAction { access_token := some "a", refresh_token := some "r",
                    expires := some 5 } 5 3600000 = AuthAction.fullAuth :=
  invalid_state_full_auth _ 5 3600000
    (Or.inr (Or.inr (Or.inr ⟨5, rfl, le_refl 5⟩)))

/-- Claim C3: when the transport fails or the token endpoint answers with a
status outside the 2xx range, _getToken and _refresh reject with an error
and leave both the in-memory state and the persisted token file exactly as
they were. -/
theorem token_exchange_failure_preserves_state
    (now : Int) (cfgFile : Bool) (st : FeedlyState) (file : Option FeedlyState)
    (r : TransportResult)
    (h : (∃ msg, r = TransportResult.netError msg) ∨
         (∃ status body, r = TransportResult.response status body ∧
            (status < 200 ∨ 300 ≤ status))) :
    ((getToken r now cfgFile st file).state = st ∧
     (getToken r now cfgFile st file).file = file ∧
     (∃ e, (getToken r now cfgFile st file).result = Except.error e)) ∧
    ((refreshTokens r now cfgFile st file).state = st ∧
     (refreshTokens r now cfgFile st file).file = file ∧
     (∃ e, (refreshTokens r now cfgFile st file).result = Except.error e)) := by
  obtain ⟨e, he⟩ : ∃ e, qrequest r = Except.error e := by
    rcases h with ⟨msg, rfl⟩ | ⟨status, body, rfl, hs⟩
    · exact ⟨msg, rfl⟩
    · refine ⟨"HTTP error: " ++ toString status, ?_⟩
      unfold qrequest
      have hne : status ≠ 200 := by omega
      simp [hne]
  constructor
  · unfold getToken
    rw [he]
    exact ⟨rfl, rfl, ⟨e, rfl⟩⟩
  · unfold refreshTokens
    rw [he]
    exact ⟨rfl, rfl, ⟨e, rfl⟩⟩

/-- Witness for claim C3 at a concrete 500 response. -/
theorem token_exchange_failure_check :
    ((getToken (TransportResult.response 500 {}) 0 true {} none).state = {} ∧
     (getToken (TransportResult.response 500 {}) 0 true {} none).file = none ∧
     (∃ e, (getToken (TransportResult.response 500 {}) 0 true {} none).result
        = Except.error e)) ∧
    ((refreshTokens (TransportResult.response 500 {}) 0 true {} none).state = {} ∧
     (refreshTokens (TransportResult.response 500 {}) 0 true {} none).file = none ∧
     (∃ e, (refreshTokens (TransportResult.response 500 {}) 0 true {} none).result
        = Except.error e)) :=
  token_exchange_failure_preserves_state 0 true {} none
    (TransportResult.response 500 {})
    (Or.inr ⟨500, {}, rfl, Or.inr (by omega)⟩)

/-- Claim C4: on a fresh listener, the first request for the root path is
answered 200 with the configured text, fills the single-resolution slot with
the parsed query, and closes the listener, after which a further connection
is refused; a request for any other path is answered 404, resolves nothing,
and leaves the listener open. -/
theorem qserver_first_callback (text : String) (root other later : HttpRequest)
    (hroot : root.pathname = "/") (hother : other.pathname ≠ "/") :
    handleRequest text {} root
      = ({ resolved := some root.query, closed := true },
         { status := 200, body := text }) ∧
    runServer text { resolved := some root.query, closed := true } [later]
      = ({ resolved := some root.query, closed := true }, [none]) ∧
    handleRequest text {} other = ({}, { status := 404, body := "" }) := by
  refine ⟨?_, ?_, ?_⟩
  · unfold handleRequest
    simp [hroot]
  · rfl
  · unfold handleRequest
    simp [hother]

/-- Witness for claim C4 at a concrete code callback and a stray probe. -/
theorem qserver_first_callback_check :
    handleRequest "thanks" {} { pathname := "/", query := [("code", "abc123")] }
      = ({ resolved := some [("code", "abc123")], closed := true },
         { status := 200, body := "thanks" }) ∧
    runServer "thanks" { resolved := some [("code", "abc123")], closed := true }
        [{ pathname := "/", query := [] }]
      = ({ resolved := some [("code", "abc123")], closed := true }, [none]) ∧
    handleRequest "thanks" {} { pathname := "/other", query := [] }
      = ({}, { status := 404, body := "" }) :=
  qserver_first_callback "thanks" _ _ _ rfl (by decide)

/-- Claim C5: _loadConfig is a total function of the file state, so the
startup load never throws: a missing or unreadable file and a file whose
contents fail to parse each yield the empty state, while a successful read
yields the parsed contents with the stored epoch millisecond expiry
converted through new Date. -/
theorem loadConfig_never_fails (st s : FeedlyState) :
    loadConfig (some TokenFileRead.missing) st = {} ∧
    loadConfig (some TokenFileRead.malformed) st = {} ∧
    loadConfig (some (TokenFileRead.parsed s)) st
      = { s with expires := s.expires.map dateOfMs } :=
  ⟨rfl, rfl, rfl⟩

/-- Claim C6: a 200 token response is merged over the state with the body
fields taking precedence, expires is set to now plus expires_in seconds in
milliseconds, the merged state is saved exactly when a config file is
configured, and the access token of the merged state is returned; _refresh
behaves identically, and in particular the stored refresh token survives
whenever the response body does not carry one, by the equation for
assignField. -/
theorem token_exchange_success_contract
    (now : Int) (cfgFile : Bool) (st : FeedlyState) (file : Option FeedlyState)
    (b : TokenBody) :
    getToken (TransportResult.response 200 b) now cfgFile st file
      = { result := Except.ok (assignField st.access_token b.access_token),
          state := { mergeBody st b with expires := some (now + b.expires_in * 1000) },
          file := saveState cfgFile
                    { mergeBody st b with expires := some (now + b.expires_in * 1000) }
                    file,
          tokenRequests := 1 } ∧
    refreshTokens (TransportResult.response 200 b) now cfgFile st file
      = getToken (TransportResult.response 200 b) now cfgFile st file ∧
    (mergeBody st b).refresh_token = assignField st.refresh_token b.refresh_token :=
  ⟨rfl, rfl, rfl⟩

/-- Claim C7: when the callback query carries an error field, _auth throws
exactly that error value, issues zero requests to the token endpoint, and
leaves the state and the persisted file unchanged. -/
theorem auth_callback_error_rejects (code : Option String) (e : String)
    (resp : TransportResult) (now : Int) (cfgFile : Bool)
    (st : FeedlyState) (file : Option FeedlyState) :
    auth { code := code, error := some e } resp now cfgFile st file
      = { result := Except.error e, state := st, file := file, tokenRequests := 0 } :=
  rfl

/-- Claim C8: logout clears access_token, expires, refresh_token and the
provider fields and persists the cleared state whether the revoke call
succeeds or fails, but contrary to the claim the revoke response body is
never merged into the state: the code assigns the un-awaited promise, which
exposes no own enumerable properties, so the plan field carried by the
response below is absent afterward. -/
theorem logout_ignores_revoke_response :
    logoutStep (TransportResult.response 200 { plan := some "pro" }) true
        { access_token := some "a", refresh_token := some "r", expires := some 5,
          token_type := some "Bearer", plan := some "old", provider := some "p",
          id := some "u" } none
      = ({ id := some "u" }, some { id := some "u" }) ∧
    logoutStep (TransportResult.netError "down") true
        { access_token := some "a", refresh_token := some "r", expires := some 5,
          id := some "u" } none
      = ({ id := some "u" }, some { id := some "u" }) :=
  ⟨rfl, rfl⟩

/-- Claim C9: with a configured token file the awaited startup load replaces
whatever the constructor seeded, yielding the empty state on any read or
parse failure and the file contents on success, independently of the
constructor token options; only with a null config file do the constructor
supplied tokens survive into the first _getAuth call. -/
theorem startup_load_overrides_ctor_tokens (o o2 : CtorTokenOptions) (s : FeedlyState) :
    startupState o none = ctorState o ∧
    startupState o (some TokenFileRead.missing) = {} ∧
    startupState o (some TokenFileRead.malformed) = {} ∧
    startupState o (some (TokenFileRead.parsed s))
      = startupState o2 (some (TokenFileRead.parsed s)) ∧
    startupState o (some (TokenFileRead.parsed s))
      = { s with expires := s.expires.map dateOfMs } :=
  ⟨rfl, rfl, rfl, rfl, rfl⟩

/-- Claim C10: the identifier f is not bound in the scope visible inside
markEntrySaved and markEntryUnsaved, so for every input both methods throw a
ReferenceError instead of issuing a request. -/
theorem mark_saved_unsaved_reference_error (ids : List String) :
    markEntrySaved ids = MethodOutcome.referenceError "f" ∧
    markEntryUnsaved ids = MethodOutcome.referenceError "f" := by
  constructor <;> rfl
